import Mathlib

/-!
Shallow embedding of the misc-device registration and dispatch framework in
src/rust/kernel/miscdev.rs: the `Registration` lifecycle (default, register,
drop), the four callback dispatch shims (open, read, write, release), the
ownership-transfer contract used by the shims, and the address arithmetic of
the back-reference macros (offset_of, container_of).
-/

namespace Miscdev

/-- Modelled from the spec: the abstract error kinds carried by contract
failures (spec section 7). The concrete error type lives in the kernel error
module of the repository, which is not among the provided sources; only the
kinds that the provided sources mention are modelled. -/
inductive Error where
  | EINVAL
  | EFAULT
  | ENOMEM
  | EAGAIN
deriving DecidableEq, Repr

/-- Modelled from the spec: the host-defined numeric status code of each error
kind (the 1:1 kind-to-code mapping of spec section 4.4). The value is the
positive errno number; the dispatch shims in the source negate it where they
intend to produce a negative host status. -/
def Error.to_errno : Error → Int
  | .EINVAL => 22
  | .EFAULT => 14
  | .ENOMEM => 12
  | .EAGAIN => 11

/-- Modelled from the spec: conversion of a negative host status into an error
kind, as performed by the kernel to_result helper called at miscdev.rs line
134. Codes outside the modelled kinds are mapped to EINVAL. -/
def Error.fromErrno (n : Int) : Error :=
  if n = 14 then .EFAULT
  else if n = 12 then .ENOMEM
  else if n = 11 then .EAGAIN
  else .EINVAL

/-- The host-visible device descriptor (struct miscdevice), reduced to the
fields the source writes: the minor number, the device name pointer and the
fops pointer (modelled as a flag recording whether it points at the static
callback table FOPS). A zeroed descriptor has minor 0, a null name and a null
fops pointer. -/
structure Miscdevice where
  minor : Int
  name : Option String
  fops_set : Bool
deriving DecidableEq, Repr

/-- The zeroed descriptor produced by miscdevice::default(). -/
def Miscdevice.default : Miscdevice :=
  { minor := 0, name := none, fops_set := false }

/-- The dynamically-assigned-minor sentinel MISC_DYNAMIC_MINOR of the kernel
ABI. -/
def MISC_DYNAMIC_MINOR : Int := 255

/-- The Registration state of miscdev.rs lines 38 to 47: the registered flag,
the embedded descriptor and the MaybeUninit open data (modelled as Option:
none when uninitialized). The PhantomPinned marker carries no state. -/
structure Registration (D : Type) where
  registered : Bool
  miscdev : Miscdevice
  open_data : Option D
deriving DecidableEq, Repr

/-- Registration::default() from miscdev.rs lines 52 to 61: unregistered,
zeroed descriptor, uninitialized open data. -/
def Registration.default (D : Type) : Registration D :=
  { registered := false, miscdev := Miscdevice.default, open_data := none }

/-- Everything one call to Registration::register produces: the state of the
Registration afterwards, the Result value, a snapshot of the Registration
state at the moment misc_register is invoked on the host (none when the host
is never asked), and the number of times the open-data destructor ran during
the call. -/
structure RegisterOutcome (D : Type) where
  reg : Registration D
  result : Except Error Unit
  publishedState : Option (Registration D)
  destructorRuns : Nat

/-- Registration::register from miscdev.rs lines 115 to 144. The hostRes
argument is the status returned by the external misc_register call (negative
on failure). If already registered the call returns EINVAL at once. Otherwise
the descriptor fields minor, name and fops are populated (the name is the
constant string rchrdev from line 124), the registered flag is set, the open
data is written, and the host is asked to publish the descriptor. On a
negative host status the registered flag is reset, the open data destructor is
run, and the converted error is surfaced; the descriptor fields are not
reverted. -/
def Registration.register {D : Type} (r : Registration D) (data : D) (hostRes : Int) :
    RegisterOutcome D :=
  if r.registered then
    { reg := r, result := Except.error Error.EINVAL, publishedState := none, destructorRuns := 0 }
  else
    let r1 : Registration D :=
      { registered := true,
        miscdev := { r.miscdev with
                     minor := MISC_DYNAMIC_MINOR,
                     name := some "rchrdev",
                     fops_set := true },
        open_data := some data }
    if hostRes < 0 then
      { reg := { r1 with registered := false, open_data := none },
        result := Except.error (Error.fromErrno (-hostRes)),
        publishedState := some r1,
        destructorRuns := 1 }
    else
      { reg := r1, result := Except.ok (), publishedState := some r1, destructorRuns := 0 }

/-- The observable effects of Drop for Registration (miscdev.rs lines 267 to
274): whether misc_deregister was called and how many times the open-data
destructor ran. The drop consumes the object, so it has no successor state. -/
structure DropEffects where
  deregistered : Bool
  destructorRuns : Nat
deriving DecidableEq, Repr

/-- Drop::drop from miscdev.rs lines 267 to 274: only when the registered flag
is set, the descriptor is withdrawn from the host and the open data destructor
runs. -/
def Registration.drop {D : Type} (r : Registration D) : DropEffects :=
  if r.registered then { deregistered := true, destructorRuns := 1 }
  else { deregistered := false, destructorRuns := 0 }

/-- Runs a sequence of register calls on one Registration, each call carrying
its open data and the status the host would return for it. Returns the final
state and the list of Result values in call order. -/
def runRegisters {D : Type} : Registration D → List (D × Int) →
    Registration D × List (Except Error Unit)
  | r, [] => (r, [])
  | r, c :: rest =>
    ((runRegisters (r.register c.1 c.2).reg rest).1,
     (r.register c.1 c.2).result :: (runRegisters (r.register c.1 c.2).reg rest).2)

/-- Number of successful results in a list of register results. -/
def countOk (rs : List (Except Error Unit)) : Nat :=
  rs.countP fun x => match x with
    | Except.ok _ => true
    | Except.error _ => false

/-- The data-model invariant of spec section 3 restricted to the locally
observable fields: the registered flag is set exactly when the open data is
initialized. -/
def registrationInv {D : Type} (r : Registration D) : Prop :=
  r.registered = true ↔ r.open_data.isSome = true

/-- Modelled from the spec: the Ownership-Transfer Contract (ForeignOwnable,
imported by miscdev.rs from kernel types but not among the provided sources).
The opaque handles the host stores are modelled as a store of numbered cells:
into_foreign places the value in a fresh cell and returns its number, borrow
reads the cell without consuming it, from_foreign removes the cell and
returns the value. -/
structure FHeap (D : Type) where
  next : Nat
  cells : List (Nat × D)
deriving Repr

/-- An empty handle store; handle 0 plays the role of the null pointer and is
never allocated. -/
def FHeap.empty (D : Type) : FHeap D :=
  { next := 1, cells := [] }

/-- Modelled from the spec: into_foreign consumes a value and returns an
opaque handle; the destructor is not run and responsibility moves to whoever
later calls from_foreign. -/
def into_foreign {D : Type} (h : FHeap D) (d : D) : Nat × FHeap D :=
  (h.next, { next := h.next + 1, cells := (h.next, d) :: h.cells })

/-- Modelled from the spec: borrow produces a temporary non-owning view of the
value behind a handle without affecting its lifetime. -/
def borrow {D : Type} (h : FHeap D) (p : Nat) : Option D :=
  h.cells.lookup p

/-- Modelled from the spec: from_foreign reconstructs the owning value and
retires the handle. -/
def from_foreign {D : Type} (h : FHeap D) (p : Nat) : Option D × FHeap D :=
  (h.cells.lookup p, { h with cells := h.cells.filter fun c => c.1 != p })

/-- The ownership-transfer events a dispatch shim performs on the handle
store, in the order the source performs them. -/
inductive FEvent where
  | intoF
  | borrowed
  | fromF
deriving DecidableEq, Repr

/-- The per-open file context the host hands to every shim: the private_data
pointer (an opaque handle, initially the address misc_open stored there) and
the stored file position f_pos. -/
structure File where
  private_data : Nat
  f_pos : Int
deriving DecidableEq, Repr

/-- Everything one call to the open shim produces: the returned host status,
the handle store and file context afterwards, and the ownership-transfer
events performed. -/
structure OpenResult (D : Type) where
  ret : Int
  heap : FHeap D
  file : File
  events : List FEvent

/-- Registration::open_callback from miscdev.rs lines 147 to 170. The openRes
argument is the value of the device contract call T::open(open_data), whose
receiver is obtained through container_of recovery. On success the returned
data is transferred to the host with into_foreign and the handle is stored in
private_data, and 0 is returned. On any contract failure the shim returns
minus the EFAULT code and stores nothing. -/
def open_callback {D : Type} (openRes : Except Error D) (h : FHeap D) (f : File) :
    OpenResult D :=
  match openRes with
  | Except.ok d =>
    let ph := into_foreign h d
    { ret := 0, heap := ph.2, file := { f with private_data := ph.1 }, events := [FEvent.intoF] }
  | Except.error _ =>
    { ret := -(Error.to_errno Error.EFAULT), heap := h, file := f, events := [] }

/-- Everything one call to the read shim produces: the returned host status,
the file context afterwards, the value of the position pointed to by ppos
afterwards, the discarded temporary copy of the file struct when one is
created (see below), and the ownership-transfer events performed. -/
structure ReadResult where
  ret : Int
  file : File
  ppos : Int
  tempCopy : Option File
  events : List FEvent
deriving Repr

/-- Registration::read_callback from miscdev.rs lines 173 to 207. The shim
borrows the per-open data behind private_data, calls the device contract read
T_read with it, the requested count and the position read from ppos, then
copies the returned buffer to user space (copyRes is the status of
_copy_to_user, 0 on full success). On contract failure it returns minus the
errno of the error; on copy failure it returns minus the EINVAL code. On the
success path the source executes the statement at line 201, which dereferences
filp into a by-value temporary copy of the file struct (the file type is Copy,
which the expression requires in order to compile) and increments f_pos of
that temporary; the temporary is then discarded, so the stored file context is
returned unchanged. The tempCopy field records that discarded temporary. The
value behind ppos is never written. -/
def read_callback {D : Type} (T_read : Option D → Nat → Int → Except Error (List Nat))
    (h : FHeap D) (f : File) (count : Nat) (ppos : Int) (copyRes : Nat) : ReadResult :=
  let data := borrow h f.private_data
  match T_read data count ppos with
  | Except.error e =>
    { ret := -(Error.to_errno e), file := f, ppos := ppos, tempCopy := none,
      events := [FEvent.borrowed] }
  | Except.ok device_buf =>
    if copyRes = 0 then
      { ret := (device_buf.length : Int), file := f, ppos := ppos,
        tempCopy := some { f with f_pos := f.f_pos + (device_buf.length : Int) },
        events := [FEvent.borrowed] }
    else
      { ret := -(Error.to_errno Error.EINVAL), file := f, ppos := ppos, tempCopy := none,
        events := [FEvent.borrowed] }

/-- Everything one call to the write shim produces: the returned host status,
the file context afterwards, the value behind ppos afterwards, the buffer and
position handed to the device contract write (none when it was never
invoked), the discarded temporary copy of the file struct when one is
created, and the ownership-transfer events performed. -/
structure WriteResult where
  ret : Int
  file : File
  ppos : Int
  invoked : Option (List Nat × Int)
  tempCopy : Option File
  events : List FEvent
deriving Repr

/-- Registration::write_callback from miscdev.rs lines 210 to 253. The shim
borrows the per-open data, then allocates a vector of capacity count (allocOk
is the success of try_with_capacity) and resizes it to length count filled
with zero bytes (resizeOk is the success of try_resize); failure of either
returns minus the EFAULT code. It then copies count bytes from the user
source into the buffer (copyRes is the status of _copy_from_user, 0 on full
success; failure returns minus the EINVAL code), so the buffer handed to the
contract is the first count user bytes, zero padded when the modelled user
source is shorter. It then calls the device contract write T_write with the
borrowed data, the buffer and the position read from ppos. On contract success
the source executes the statement at line 248, which increments f_pos of a
by-value temporary copy of the file struct exactly as in read_callback; the
temporary is discarded and the stored file context is returned unchanged, and
the reported written length is returned. On contract failure minus the errno
of the error is returned. -/
def write_callback {D : Type} (T_write : Option D → List Nat → Int → Except Error Int)
    (h : FHeap D) (f : File) (userBytes : List Nat) (count : Nat) (ppos : Int)
    (allocOk : Bool) (resizeOk : Bool) (copyRes : Nat) : WriteResult :=
  let data := borrow h f.private_data
  if !allocOk then
    { ret := -(Error.to_errno Error.EFAULT), file := f, ppos := ppos, invoked := none,
      tempCopy := none, events := [FEvent.borrowed] }
  else if !resizeOk then
    { ret := -(Error.to_errno Error.EFAULT), file := f, ppos := ppos, invoked := none,
      tempCopy := none, events := [FEvent.borrowed] }
  else if copyRes ≠ 0 then
    { ret := -(Error.to_errno Error.EINVAL), file := f, ppos := ppos, invoked := none,
      tempCopy := none, events := [FEvent.borrowed] }
  else
    let buffer := userBytes.take count ++ List.replicate (count - userBytes.length) 0
    match T_write data buffer ppos with
    | Except.ok wlen =>
      { ret := wlen, file := f, ppos := ppos, invoked := some (buffer, ppos),
        tempCopy := some { f with f_pos := f.f_pos + wlen }, events := [FEvent.borrowed] }
    | Except.error e =>
      { ret := -(Error.to_errno e), file := f, ppos := ppos, invoked := some (buffer, ppos),
        tempCopy := none, events := [FEvent.borrowed] }

/-- Everything one call to the release shim produces: the returned host
status, the value recovered from the handle, the handle store afterwards, and
the ownership-transfer events performed. -/
structure ReleaseResult (D : Type) where
  ret : Int
  recovered : Option D
  heap : FHeap D
  events : List FEvent

/-- Registration::release_callback from miscdev.rs lines 256 to 264. The shim
takes ownership of the per-open data back from the handle in private_data with
from_foreign and calls the device contract release T_release on it; success
maps to 0 and failure to the raw to_errno value of the error (the source does
not negate it here, unlike the other shims). -/
def release_callback {D : Type} (T_release : Option D → Except Error Unit)
    (h : FHeap D) (f : File) : ReleaseResult D :=
  let dh := from_foreign h f.private_data
  match T_release dh.1 with
  | Except.ok _ => { ret := 0, recovered := dh.1, heap := dh.2, events := [FEvent.fromF] }
  | Except.error e =>
    { ret := Error.to_errno e, recovered := dh.1, heap := dh.2, events := [FEvent.fromF] }

/-- A read or write request arriving between open and release. -/
inductive RWOp where
  | rd
  | wr
deriving DecidableEq, Repr

/-- Runs a sequence of read and write shim invocations against one open
instance, threading the file context the shims return and collecting the
ownership-transfer events. Reads are issued with count 1, position 0 and a
successful copy; writes with an empty user source, count 0, position 0,
successful allocation and copy (the events a shim performs do not depend on
these choices). -/
def runOps {D : Type} (tr : Option D → Nat → Int → Except Error (List Nat))
    (tw : Option D → List Nat → Int → Except Error Int) :
    FHeap D → File → List RWOp → FHeap D × File × List FEvent
  | h, f, [] => (h, f, [])
  | h, f, RWOp.rd :: rest =>
    ((runOps tr tw h (read_callback tr h f 1 0 0).file rest).1,
     (runOps tr tw h (read_callback tr h f 1 0 0).file rest).2.1,
     (read_callback tr h f 1 0 0).events ++
       (runOps tr tw h (read_callback tr h f 1 0 0).file rest).2.2)
  | h, f, RWOp.wr :: rest =>
    ((runOps tr tw h (write_callback tw h f [] 0 0 true true 0).file rest).1,
     (runOps tr tw h (write_callback tw h f [] 0 0 true true 0).file rest).2.1,
     (write_callback tw h f [] 0 0 true true 0).events ++
       (runOps tr tw h (write_callback tw h f [] 0 0 true true 0).file rest).2.2)

/-- The full lifecycle of one successfully opened instance, composed from the
shims in the order the host guarantees: the open shim with a successful
contract open returning d, then the given sequence of read and write shims,
then the release shim. Returns the value the release shim recovers from the
handle and the concatenated ownership-transfer event trace. -/
def lifecycle {D : Type} (d : D) (tr : Option D → Nat → Int → Except Error (List Nat))
    (tw : Option D → List Nat → Int → Except Error Int)
    (trel : Option D → Except Error Unit) (ops : List RWOp) : Option D × List FEvent :=
  let o := open_callback (Except.ok d) (FHeap.empty D) { private_data := 0, f_pos := 0 }
  let m := runOps tr tw o.heap o.file ops
  let r := release_callback trel m.1 m.2.1
  (r.recovered, o.events ++ m.2.2 ++ r.events)

/-- The address space size of the 64 bit target, 2 to the power 64; pointer
arithmetic with wrapping_offset is arithmetic modulo this constant. -/
def USIZE_MOD : Nat := 18446744073709551616

/-- The layout information the offset_of macro extracts from a struct type: a
byte offset of the named field from the start of the struct, arbitrary to
cover any alignment and padding. -/
structure StructLayout where
  fieldOffset : Nat
deriving DecidableEq, Repr

/-- The offset_of macro from miscdev.rs lines 366 to 381: the signed distance
in bytes from the start of the struct to the field. The macro computes it from
an uninitialized MaybeUninit value with addr_of, without reading the struct,
so it is a pure function of the layout; for a real field the distance is the
nonnegative fieldOffset. -/
def offset_of (l : StructLayout) : Nat := l.fieldOffset

/-- The container_of macro from miscdev.rs lines 407 to 413: takes a pointer
to a field and produces the pointer to the enclosing struct by
wrapping_offset with the negated offset_of value, that is subtraction modulo
the address space size. The computation reads no memory. -/
def container_of (ptr : Nat) (l : StructLayout) : Nat :=
  (ptr + (USIZE_MOD - offset_of l % USIZE_MOD)) % USIZE_MOD

/-- Helper: a register call on an already registered Registration returns
EINVAL and changes nothing. -/
theorem register_of_registered {D : Type} (r : Registration D) (d : D) (h : Int)
    (hr : r.registered = true) :
    r.register d h =
      { reg := r, result := Except.error Error.EINVAL, publishedState := none,
        destructorRuns := 0 } := by
  simp [Registration.register, hr]

/-- Helper: a register sequence started on a registered Registration contains
no successful result. -/
theorem runRegisters_no_success_of_registered {D : Type} (calls : List (D × Int)) :
    ∀ r : Registration D, r.registered = true → countOk (runRegisters r calls).2 = 0 := by
  induction calls with
  | nil => intro r hr; rfl
  | cons c rest ih =>
    intro r hr
    rw [runRegisters, register_of_registered r c.1 c.2 hr]
    simpa [countOk] using ih r hr

/-- Helper: a register call either succeeds and leaves the Registration
registered, or fails and leaves the registered flag as it was. -/
theorem register_cases {D : Type} (r : Registration D) (d : D) (h : Int) :
    ((r.register d h).result = Except.ok () ∧ (r.register d h).reg.registered = true) ∨
    ((∃ e, (r.register d h).result = Except.error e) ∧
      (r.register d h).reg.registered = r.registered) := by
  by_cases hr : r.registered = true
  · right
    simp [Registration.register, hr]
  · have hr2 : r.registered = false := by
      cases hb : r.registered
      · rfl
      · exact absurd hb hr
    by_cases hh : h < 0
    · right
      simp [Registration.register, hr2, hh]
    · left
      simp [Registration.register, hr2, hh]

/-- Helper: countOk of a list headed by a success. -/
theorem countOk_cons_ok (l : List (Except Error Unit)) :
    countOk (Except.ok () :: l) = countOk l + 1 := by
  simp [countOk, List.countP_cons]

/-- Helper: countOk of a list headed by a failure. -/
theorem countOk_cons_err (e : Error) (l : List (Except Error Unit)) :
    countOk (Except.error e :: l) = countOk l := by
  simp [countOk, List.countP_cons]

/-- Helper: any register sequence contains at most one successful result. -/
theorem runRegisters_success_bound {D : Type} (calls : List (D × Int)) :
    ∀ r : Registration D, countOk (runRegisters r calls).2 ≤ 1 := by
  induction calls with
  | nil => intro r; simp [runRegisters, countOk]
  | cons c rest ih =>
    intro r
    rw [runRegisters]
    rcases register_cases r c.1 c.2 with ⟨hres, hreg⟩ | ⟨⟨e, hres⟩, hreg⟩
    · have h0 := runRegisters_no_success_of_registered rest _ hreg
      rw [hres, countOk_cons_ok, h0]
    · rw [hres, countOk_cons_err]
      exact ih _

/-- C1 counterexample: it is not true that only the first register call on a
Registration can succeed. On a fresh Registration, a first call whose host
publish fails (host status -12) is rolled back, and the second call then
succeeds: the result list of the two-call sequence is failure then success. -/
theorem register_second_call_can_succeed :
    (runRegisters (Registration.default Nat) [(0, -12), (0, 0)]).2 =
      [Except.error Error.ENOMEM, Except.ok ()] := by
  rfl

/-- C1 (amended): once a register call on a Registration has succeeded the
registered flag is set, and from then on every register call fails with
EINVAL (the AlreadyRegistered code) and leaves the whole Registration state
unchanged; consequently at most one call in any sequence of register calls on
one Registration succeeds. A call rolled back by a host publish failure does
not prevent a later call from succeeding. -/
theorem register_at_most_one_success {D : Type} :
    (∀ (r : Registration D) (d : D) (h : Int), r.registered = true →
      r.register d h =
        { reg := r, result := Except.error Error.EINVAL, publishedState := none,
          destructorRuns := 0 }) ∧
    (∀ (r : Registration D) (calls : List (D × Int)),
      countOk (runRegisters r calls).2 ≤ 1) :=
  ⟨fun r d h hr => register_of_registered r d h hr,
   fun r calls => runRegisters_success_bound calls r⟩

/-- C1 witness: the amended theorem applied to a Registration that was
successfully registered by a first call, and to a concrete three-call
sequence. -/
theorem register_at_most_one_success_witness :
    ((Registration.default Nat).register 0 0).reg.register 1 5 =
      { reg := ((Registration.default Nat).register 0 0).reg,
        result := Except.error Error.EINVAL, publishedState := none,
        destructorRuns := 0 } ∧
    countOk (runRegisters (Registration.default Nat) [(0, 0), (1, 0), (2, 7)]).2 ≤ 1 :=
  ⟨register_at_most_one_success.1 ((Registration.default Nat).register 0 0).reg 1 5 rfl,
   register_at_most_one_success.2 (Registration.default Nat) [(0, 0), (1, 0), (2, 7)]⟩

/-- C2 counterexample: a register call whose host publish fails does not roll
back all local state changes. On a fresh Registration the failed call leaves
the descriptor populated (minor 255 instead of the zeroed 0), so the resulting
state differs from the state before the call. -/
theorem register_host_failure_keeps_descriptor :
    ((Registration.default Nat).register 7 (-12)).reg ≠ Registration.default Nat ∧
    ((Registration.default Nat).register 7 (-12)).reg.miscdev.minor = 255 ∧
    (Registration.default Nat).miscdev.minor = 0 := by
  refine ⟨by decide, rfl, rfl⟩

/-- C2 (amended): if the host publish call fails, register resets the
registered flag to false and destroys the freshly stored shared state before
surfacing the converted host error (the populated descriptor fields are not
reverted, but are inert while the flag is false); and over the whole
lifecycle, failed registration followed by drop as well as successful
registration followed by drop, the shared-state destructor runs exactly
once. -/
theorem register_host_failure_rollback {D : Type} :
    (∀ (r : Registration D) (d : D) (h : Int), r.registered = false → h < 0 →
      (r.register d h).reg.registered = false ∧
      (r.register d h).reg.open_data = none ∧
      (r.register d h).result = Except.error (Error.fromErrno (-h)) ∧
      (r.register d h).destructorRuns + ((r.register d h).reg.drop).destructorRuns = 1) ∧
    (∀ (r : Registration D) (d : D) (h : Int), r.registered = false → 0 ≤ h →
      (r.register d h).destructorRuns + ((r.register d h).reg.drop).destructorRuns = 1) := by
  constructor
  · intro r d h hr hh
    simp [Registration.register, Registration.drop, hr, hh]
  · intro r d h hr hh
    have hh2 : ¬h < 0 := by omega
    simp [Registration.register, Registration.drop, hr, hh2]

/-- C2 witness: the amended theorem applied to a fresh Registration, once with
a failing host status -12 and once with the succeeding host status 0. -/
theorem register_host_failure_rollback_witness :
    (((Registration.default Nat).register 7 (-12)).reg.registered = false ∧
     ((Registration.default Nat).register 7 (-12)).reg.open_data = none ∧
     ((Registration.default Nat).register 7 (-12)).result =
       Except.error (Error.fromErrno (-(-12))) ∧
     ((Registration.default Nat).register 7 (-12)).destructorRuns +
       (((Registration.default Nat).register 7 (-12)).reg.drop).destructorRuns = 1) ∧
    ((Registration.default Nat).register 7 0).destructorRuns +
      (((Registration.default Nat).register 7 0).reg.drop).destructorRuns = 1 :=
  ⟨register_host_failure_rollback.1 (Registration.default Nat) 7 (-12) rfl (by decide),
   register_host_failure_rollback.2 (Registration.default Nat) 7 0 rfl (by decide)⟩

/-- C8 counterexample: the descriptor is not populated with a device name
supplied by user code. The register entry points take no name argument; the
only user-supplied value is the shared state, and even when the user passes
the string mydev as that value the published descriptor carries the fixed
name rchrdev. -/
theorem register_name_not_user_supplied :
    ((Registration.default String).register "mydev" 0).reg.miscdev.name =
      some "rchrdev" ∧
    some "rchrdev" ≠ some "mydev" := by
  constructor
  · rfl
  · decide

/-- C8 (amended): on a first register call (registered flag false), at the
moment the host is asked to publish the descriptor, the descriptor is already
populated with the fixed device name rchrdev, the dynamically-assigned-minor
sentinel and the pointer to the static callback table, and the shared state
is already stored in place; this holds whether the host call then succeeds or
fails. -/
theorem register_populates_descriptor_before_publish {D : Type} :
    ∀ (r : Registration D) (d : D) (h : Int), r.registered = false →
      (r.register d h).publishedState =
        some { registered := true,
               miscdev := { minor := MISC_DYNAMIC_MINOR, name := some "rchrdev",
                            fops_set := true },
               open_data := some d } := by
  intro r d h hr
  by_cases hh : h < 0 <;> simp [Registration.register, hr, hh]

/-- C8 witness: the amended theorem applied to a fresh Registration with
shared state 42 and host status 0. -/
theorem register_populates_descriptor_before_publish_witness :
    ((Registration.default Nat).register 42 0).publishedState =
      some { registered := true,
             miscdev := { minor := MISC_DYNAMIC_MINOR, name := some "rchrdev",
                          fops_set := true },
             open_data := some 42 } :=
  register_populates_descriptor_before_publish (Registration.default Nat) 42 0 rfl

/-- C9: the invariant, the registered flag is true exactly when the shared
state is initialized, holds of a freshly constructed Registration and is
preserved by every register call, successful or not; and at the drop
boundary, the destructor of the shared state runs exactly when the shared
state is initialized (drop consumes the object, so there is no observable
state after it). -/
theorem registration_invariant_preserved {D : Type} :
    registrationInv (Registration.default D) ∧
    (∀ (r : Registration D) (d : D) (h : Int),
      registrationInv r → registrationInv (r.register d h).reg) ∧
    (∀ r : Registration D, registrationInv r →
      ((r.drop).destructorRuns = 1 ↔ r.open_data.isSome = true)) := by
  refine ⟨?_, ?_, ?_⟩
  · simp [registrationInv, Registration.default, Miscdevice.default]
  · intro r d h hinv
    by_cases hr : r.registered = true
    · rw [register_of_registered r d h hr]
      exact hinv
    · have hr2 : r.registered = false := by
        cases hb : r.registered
        · rfl
        · exact absurd hb hr
      by_cases hh : h < 0 <;> simp [registrationInv, Registration.register, hr2, hh]
  · intro r hinv
    by_cases hr : r.registered = true
    · simp [Registration.drop, hr, hinv.mp hr]
    · have hr2 : r.registered = false := by
        cases hb : r.registered
        · rfl
        · exact absurd hb hr
      have hd : r.open_data.isSome = false := by
        cases hb : r.open_data.isSome
        · rfl
        · exact absurd (hinv.mpr hb) (by simp [hr2])
      simp [Registration.drop, hr2, hd]

/-- C10: whenever the device contract open fails, the open shim returns the
single fixed fault code, minus the EFAULT errno, whatever the abstract kind of
the failure was, and leaves the whole file context (in particular
private_data) unmodified and the handle store untouched, so no per-open state
is stored or leaked. -/
theorem open_failure_fixed_fault_no_store {D : Type} :
    ∀ (e : Error) (h : FHeap D) (f : File),
      open_callback (Except.error e) h f =
        { ret := -(Error.to_errno Error.EFAULT), heap := h, file := f, events := [] } := by
  intro e h f
  rfl

/-- C5 counterexample: contract failure kinds are not mapped 1:1 to status
codes by every shim. The open shim maps the two distinct kinds EINVAL and
ENOMEM to the same return value, and the read and release shims map the same
kind EINVAL to the two different values -22 and 22 (the release shim does not
negate to_errno, so whichever sign convention the error type uses, the two
shims cannot both return the corresponding negative code). -/
theorem error_mapping_not_one_to_one :
    (open_callback (Except.error Error.EINVAL) (FHeap.empty Nat)
        { private_data := 5, f_pos := 0 }).ret =
      (open_callback (Except.error Error.ENOMEM) (FHeap.empty Nat)
        { private_data := 5, f_pos := 0 }).ret ∧
    (read_callback (fun _ _ _ => Except.error Error.EINVAL) (FHeap.empty Nat)
        { private_data := 5, f_pos := 0 } 4 0 0).ret = -22 ∧
    (release_callback (fun _ => Except.error Error.EINVAL) (FHeap.empty Nat)
        { private_data := 5, f_pos := 0 }).ret = 22 := by
  refine ⟨rfl, rfl, rfl⟩

/-- C5 (amended): the per-shim mapping from contract results to host status
codes is as follows. The read and write shims map a failure of kind e to
minus to_errno of e, injectively in the kind; the release shim maps it to the
raw to_errno value, without the negation the other shims apply; the open shim
maps every failure kind to the one code minus to_errno of EFAULT. A contract
success reporting a byte count is returned as that count: the read shim
returns the length of the returned buffer, which is nonnegative, and the
write shim returns exactly the written length the contract reported. -/
theorem shim_error_code_mapping {D : Type} :
    (∀ (e : Error) (h : FHeap D) (f : File),
      (open_callback (Except.error e) h f).ret = -(Error.to_errno Error.EFAULT)) ∧
    (∀ (e : Error) (h : FHeap D) (f : File) (count : Nat) (ppos : Int) (copyRes : Nat),
      (read_callback (fun _ _ _ => Except.error e) h f count ppos copyRes).ret =
        -(Error.to_errno e)) ∧
    (∀ (e : Error) (h : FHeap D) (f : File) (ub : List Nat) (count : Nat) (ppos : Int),
      (write_callback (fun _ _ _ => Except.error e) h f ub count ppos true true 0).ret =
        -(Error.to_errno e)) ∧
    (∀ (e : Error) (h : FHeap D) (f : File),
      (release_callback (fun _ => Except.error e) h f).ret = Error.to_errno e) ∧
    (∀ a b : Error, Error.to_errno a = Error.to_errno b → a = b) ∧
    (∀ (buf : List Nat) (h : FHeap D) (f : File) (count : Nat) (ppos : Int),
      (read_callback (fun _ _ _ => Except.ok buf) h f count ppos 0).ret =
        (buf.length : Int) ∧
      0 ≤ (read_callback (fun _ _ _ => Except.ok buf) h f count ppos 0).ret) ∧
    (∀ (w : Int) (h : FHeap D) (f : File) (ub : List Nat) (count : Nat) (ppos : Int),
      (write_callback (fun _ _ _ => Except.ok w) h f ub count ppos true true 0).ret = w) := by
  refine ⟨fun e h f => rfl, fun e h f c p cr => rfl, fun e h f ub c p => rfl,
    fun e h f => rfl, ?_, ?_, fun w h f ub c p => rfl⟩
  · intro a b hab
    cases a <;> cases b <;> first
      | rfl
      | (exfalso; simp only [Error.to_errno] at hab; omega)
  · intro buf h f c p
    refine ⟨rfl, ?_⟩
    have hr : (read_callback (fun _ _ _ => Except.ok buf) h f c p 0).ret =
        (buf.length : Int) := rfl
    rw [hr]
    exact Int.natCast_nonneg _

/-- C5 witness: the amended mapping theorem applied to a concrete failing read
and to the injectivity instance at the kind EAGAIN. -/
theorem shim_error_code_mapping_witness :
    (read_callback (fun _ _ _ => Except.error Error.ENOMEM) (FHeap.empty Nat)
        { private_data := 1, f_pos := 0 } 3 0 0).ret = -(Error.to_errno Error.ENOMEM) ∧
    Error.EAGAIN = Error.EAGAIN :=
  ⟨(@shim_error_code_mapping Nat).2.1 Error.ENOMEM (FHeap.empty Nat)
     { private_data := 1, f_pos := 0 } 3 0 0,
   (@shim_error_code_mapping Nat).2.2.2.2.1 Error.EAGAIN Error.EAGAIN rfl⟩

/-- C3: evaluation of the read shim at a concrete input exhibiting the
position bug. The contract read returns the five bytes of Hello and the
boundary copy succeeds, so the claim requires the stored position counter to
advance from 0 to 5; the shim does return 5, but the increment at miscdev.rs
line 201 is applied to a by-value temporary copy of the file struct which is
then discarded, so the stored f_pos remains 0 and the value behind ppos is
also left at 0. On a failing boundary copy the shim returns -22 and likewise
leaves the position unchanged. -/
theorem read_callback_position_not_advanced :
    (read_callback (fun _ _ _ => Except.ok [72, 101, 108, 108, 111])
        (FHeap.empty Nat) { private_data := 1, f_pos := 0 } 5 0 0).ret = 5 ∧
    (read_callback (fun _ _ _ => Except.ok [72, 101, 108, 108, 111])
        (FHeap.empty Nat) { private_data := 1, f_pos := 0 } 5 0 0).file =
      { private_data := 1, f_pos := 0 } ∧
    (read_callback (fun _ _ _ => Except.ok [72, 101, 108, 108, 111])
        (FHeap.empty Nat) { private_data := 1, f_pos := 0 } 5 0 0).ppos = 0 ∧
    (read_callback (fun _ _ _ => Except.ok [72, 101, 108, 108, 111])
        (FHeap.empty Nat) { private_data := 1, f_pos := 0 } 5 0 0).tempCopy =
      some { private_data := 1, f_pos := 5 } ∧
    (read_callback (fun _ _ _ => Except.ok [72, 101, 108, 108, 111])
        (FHeap.empty Nat) { private_data := 1, f_pos := 0 } 5 0 1).ret = -22 ∧
    (read_callback (fun _ _ _ => Except.ok [72, 101, 108, 108, 111])
        (FHeap.empty Nat) { private_data := 1, f_pos := 0 } 5 0 1).file.f_pos = 0 := by
  refine ⟨rfl, rfl, rfl, rfl, rfl, rfl⟩

/-- C7: evaluation of the write shim at a concrete input exhibiting the same
position bug. With requested length 2 and user bytes 65 66, the shim builds
the internal buffer of exactly those 2 bytes, hands it with the position 0 to
the contract write, and returns the reported written length 2; but the
increment at miscdev.rs line 248 is applied to a discarded by-value temporary
copy of the file struct, so the stored f_pos remains 0 instead of advancing
to 2. When the buffer allocation fails the shim returns -14, the EFAULT
fault, without invoking the contract. -/
theorem write_callback_position_not_advanced :
    (write_callback (fun _ _ _ => Except.ok 2) (FHeap.empty Nat)
        { private_data := 1, f_pos := 0 } [65, 66] 2 0 true true 0).ret = 2 ∧
    (write_callback (fun _ _ _ => Except.ok 2) (FHeap.empty Nat)
        { private_data := 1, f_pos := 0 } [65, 66] 2 0 true true 0).invoked =
      some ([65, 66], 0) ∧
    (write_callback (fun _ _ _ => Except.ok 2) (FHeap.empty Nat)
        { private_data := 1, f_pos := 0 } [65, 66] 2 0 true true 0).file =
      { private_data := 1, f_pos := 0 } ∧
    (write_callback (fun _ _ _ => Except.ok 2) (FHeap.empty Nat)
        { private_data := 1, f_pos := 0 } [65, 66] 2 0 true true 0).tempCopy =
      some { private_data := 1, f_pos := 2 } ∧
    (write_callback (fun _ _ _ => Except.ok 2) (FHeap.empty Nat)
        { private_data := 1, f_pos := 0 } [65, 66] 2 0 false true 0).ret = -14 ∧
    (write_callback (fun _ _ _ => Except.ok 2) (FHeap.empty Nat)
        { private_data := 1, f_pos := 0 } [65, 66] 2 0 false true 0).invoked = none := by
  refine ⟨rfl, rfl, rfl, rfl, rfl, rfl⟩

/-- Helper: the read shim returns the file context unchanged and performs
exactly one borrow event. -/
theorem read_callback_frame {D : Type} (tr : Option D → Nat → Int → Except Error (List Nat))
    (h : FHeap D) (f : File) (c : Nat) (p : Int) (cr : Nat) :
    (read_callback tr h f c p cr).file = f ∧
    (read_callback tr h f c p cr).events = [FEvent.borrowed] := by
  simp only [read_callback]
  cases htr : tr (borrow h f.private_data) c p with
  | error e => exact ⟨rfl, rfl⟩
  | ok buf =>
    by_cases hcr : cr = 0
    · simp [hcr]
    · simp [hcr]

/-- Helper: the write shim returns the file context unchanged and performs
exactly one borrow event. -/
theorem write_callback_frame {D : Type} (tw : Option D → List Nat → Int → Except Error Int)
    (h : FHeap D) (f : File) (ub : List Nat) (c : Nat) (p : Int) (a b : Bool) (cr : Nat) :
    (write_callback tw h f ub c p a b cr).file = f ∧
    (write_callback tw h f ub c p a b cr).events = [FEvent.borrowed] := by
  simp only [write_callback]
  cases a
  · exact ⟨rfl, rfl⟩
  · cases b
    · exact ⟨rfl, rfl⟩
    · by_cases hcr : cr = 0
      · subst hcr
        cases htw : tw (borrow h f.private_data)
            (ub.take c ++ List.replicate (c - ub.length) 0) p with
        | ok wlen => simp [htw]
        | error e => simp [htw]
      · simp [hcr]

/-- Helper: the release shim recovers exactly the value from_foreign yields
for the stored handle and performs exactly one from_foreign event. -/
theorem release_callback_frame {D : Type} (trel : Option D → Except Error Unit)
    (h : FHeap D) (f : File) :
    (release_callback trel h f).recovered = (from_foreign h f.private_data).1 ∧
    (release_callback trel h f).events = [FEvent.fromF] := by
  simp only [release_callback]
  cases htr : trel (from_foreign h f.private_data).1 with
  | ok u => exact ⟨rfl, rfl⟩
  | error e => exact ⟨rfl, rfl⟩

/-- Helper: a sequence of read and write shim invocations leaves the handle
store and the file context unchanged and performs exactly one borrow event
per invocation, in order. -/
theorem runOps_events {D : Type} (tr : Option D → Nat → Int → Except Error (List Nat))
    (tw : Option D → List Nat → Int → Except Error Int) (ops : List RWOp) :
    ∀ (h : FHeap D) (f : File),
      runOps tr tw h f ops = (h, f, ops.map fun _ => FEvent.borrowed) := by
  induction ops with
  | nil => intro h f; rfl
  | cons op rest ih =>
    intro h f
    cases op
    · simp only [runOps]
      rw [(read_callback_frame tr h f 1 0 0).1, (read_callback_frame tr h f 1 0 0).2,
        ih h f]
      simp
    · simp only [runOps]
      rw [(write_callback_frame tw h f [] 0 0 true true 0).1,
        (write_callback_frame tw h f [] 0 0 true true 0).2, ih h f]
      simp

/-- Helper: a list of borrow events contains no from_foreign event. -/
theorem count_fromF_of_borrows (ops : List RWOp) :
    ((ops.map fun _ => FEvent.borrowed).count FEvent.fromF) = 0 := by
  induction ops with
  | nil => rfl
  | cons a l ih => simpa [List.count_cons] using ih

/-- C4: over the whole lifecycle of one successfully opened instance, with any
sequence of read and write requests in between, the value the release shim
recovers with from_foreign is exactly the value the device contract open
produced and the open shim transferred with into_foreign (round trip), and
the ownership-transfer event trace is one into_foreign event, then one borrow
event per read or write invocation, then exactly one from_foreign event at
the very end, performed by the release shim; in particular every borrow
occurs strictly between into_foreign and from_foreign. -/
theorem foreign_roundtrip_and_single_from_foreign {D : Type} :
    ∀ (d : D) (tr : Option D → Nat → Int → Except Error (List Nat))
      (tw : Option D → List Nat → Int → Except Error Int)
      (trel : Option D → Except Error Unit) (ops : List RWOp),
      (lifecycle d tr tw trel ops).1 = some d ∧
      (lifecycle d tr tw trel ops).2 =
        FEvent.intoF :: ((ops.map fun _ => FEvent.borrowed) ++ [FEvent.fromF]) ∧
      (lifecycle d tr tw trel ops).2.count FEvent.fromF = 1 := by
  intro d tr tw trel ops
  have hopen :
      open_callback (Except.ok d) (FHeap.empty D) { private_data := 0, f_pos := 0 } =
        { ret := 0, heap := { next := 2, cells := [(1, d)] },
          file := { private_data := 1, f_pos := 0 }, events := [FEvent.intoF] } := rfl
  have hrec : (from_foreign ({ next := 2, cells := [(1, d)] } : FHeap D) 1).1 = some d := rfl
  have hrel := release_callback_frame trel ({ next := 2, cells := [(1, d)] } : FHeap D)
    { private_data := 1, f_pos := 0 }
  have hrun := runOps_events tr tw ops ({ next := 2, cells := [(1, d)] } : FHeap D)
    { private_data := 1, f_pos := 0 }
  refine ⟨?_, ?_, ?_⟩
  · simp only [lifecycle, hopen, hrun]
    rw [hrel.1]
    exact hrec
  · simp only [lifecycle, hopen, hrun]
    rw [hrel.2]
    simp
  · simp only [lifecycle, hopen, hrun]
    rw [hrel.2, List.count_append, List.count_append, count_fromF_of_borrows]
    rfl

/-- C6: for every struct layout (arbitrary field offset, hence arbitrary
alignment and padding) and every field pointer derived from a real instance
whose storage fits in the address space, back-reference recovery with
container_of over offset_of returns exactly the address of the enclosing
instance; the computation is pure address arithmetic on the pointer and the
layout and dereferences nothing. -/
theorem container_of_recovers_base :
    ∀ (base : Nat) (l : StructLayout), base + l.fieldOffset < USIZE_MOD →
      container_of (base + offset_of l) l = base := by
  intro base l hlt
  simp only [container_of, offset_of, USIZE_MOD] at hlt ⊢
  omega

/-- C6 witness: recovery of a concrete enclosing address 4096 from a pointer
to a field at offset 24. -/
theorem container_of_recovers_base_witness :
    container_of (4096 + offset_of { fieldOffset := 24 }) { fieldOffset := 24 } = 4096 :=
  container_of_recovers_base 4096 { fieldOffset := 24 } (by decide)

/-- C9 witness: the invariant theorem applied to the fresh Registration and to
one successful register call on it. -/
theorem registration_invariant_preserved_witness :
    registrationInv ((Registration.default Nat).register 3 0).reg ∧
    (((Registration.default Nat).drop).destructorRuns = 1 ↔
      (Registration.default Nat).open_data.isSome = true) :=
  ⟨registration_invariant_preserved.2.1 (Registration.default Nat) 3 0
     (by simp [registrationInv, Registration.default, Miscdevice.default]),
   registration_invariant_preserved.2.2 (Registration.default Nat)
     (by simp [registrationInv, Registration.default, Miscdevice.default])⟩

end Miscdev
